import Mathlib

/-!
Verification of the chat front-end core (ChatInterface.tsx): response
normalization, attachment lifecycle, and the sendMessage state machine.
JavaScript runtime values are modelled by the inductive type JSValue;
machine behaviour (truthiness, property access, string coercion,
JSON.stringify) is embedded explicitly.
-/

/-- A JavaScript runtime value, as far as the chat core inspects one:
null, undefined, booleans, numbers (modelled as integers; the source
never does float arithmetic on payloads), strings, arrays and plain
objects (ordered field lists, first match wins on lookup). -/
inductive JSValue where
  | null
  | undefinedV
  | bool (b : Bool)
  | num (n : Int)
  | str (s : String)
  | arr (items : List JSValue)
  | obj (fields : List (String × JSValue))
deriving Repr

/-- JavaScript truthiness: null, undefined, false, 0 and "" are falsy;
every other value (including all arrays and objects) is truthy. -/
def JSValue.truthy : JSValue → Bool
  | .null => false
  | .undefinedV => false
  | .bool b => b
  | .num n => n != 0
  | .str s => s != ""
  | .arr _ => true
  | .obj _ => true

/-- Property access `v[key]`: undefined on non-objects and missing keys. -/
def JSValue.get (v : JSValue) (key : String) : JSValue :=
  match v with
  | .obj fields =>
    match fields.find? (fun p => p.1 == key) with
    | some p => p.2
    | none => .undefinedV
  | _ => .undefinedV

/-- The `key in v` operator, for the shapes the source applies it to
(plain objects; arrays carry no string keys in this model). -/
def JSValue.hasKey (v : JSValue) (key : String) : Bool :=
  match v with
  | .obj fields => fields.any (fun p => p.1 == key)
  | _ => false

/-- Whether a value is a string. -/
def JSValue.isStr : JSValue → Bool
  | .str _ => true
  | _ => false

/-- Whether a value is null or undefined (the values `??` tests for,
and the array elements that stringify to nothing inside a join). -/
def JSValue.isNullish : JSValue → Bool
  | .null => true
  | .undefinedV => true
  | _ => false

/-- JavaScript string coercion, as performed by `+` on strings and by
template literals: arrays join their coerced elements with commas
(null/undefined elements become empty), objects coerce to
"[object Object]". -/
def jsToString : JSValue → String
  | .null => "null"
  | .undefinedV => "undefined"
  | .bool b => if b then "true" else "false"
  | .num n => toString n
  | .str s => s
  | .arr items => String.intercalate ","
      (items.attach.map (fun x =>
        if x.1.isNullish then "" else jsToString x.1))
  | .obj _ => "[object Object]"
decreasing_by
  simp_wf
  have := List.sizeOf_lt_of_mem x.2
  omega

/-- Escape one character for a JSON string literal (the two characters
the payloads at issue can contain that need escaping). -/
def jsonEscapeChar (c : Char) : String :=
  if c = '\\' then "\\\\"
  else if c = '"' then "\\\""
  else String.singleton c

/-- A JSON string literal for `s`. -/
def jsonQuote (s : String) : String :=
  "\"" ++ String.join (s.toList.map jsonEscapeChar) ++ "\""

/-- `JSON.stringify`: none when the value is not serialisable at top
level (undefined); inside arrays undefined serialises as null, inside
objects fields holding undefined are dropped. -/
def jsonStringify : JSValue → Option String
  | .null => some "null"
  | .undefinedV => none
  | .bool b => some (if b then "true" else "false")
  | .num n => some (toString n)
  | .str s => some (jsonQuote s)
  | .arr items => some ("[" ++ String.intercalate ","
      (items.attach.map (fun x => (jsonStringify x.1).getD "null")) ++ "]")
  | .obj fields => some ("\x7b" ++ String.intercalate ","
      (fields.attach.filterMap (fun f =>
        match f with
        | ⟨(k, v), hm⟩ =>
          (jsonStringify v).map (fun s => jsonQuote k ++ ":" ++ s))) ++ "\x7d")
decreasing_by
  all_goals simp_wf
  all_goals first
    | (have h1 := List.sizeOf_lt_of_mem x.2; omega)
    | (have h1 := List.sizeOf_lt_of_mem hm; simp at h1; omega)

/-- Item-level text extraction used inside the normalizer's array
branch: falsy items contribute nothing, string items contribute
themselves, otherwise a string `text` field contributes, else nothing. -/
def respItemText (item : JSValue) : String :=
  if item.truthy = false then ""
  else
    match item with
    | .str s => s
    | _ =>
      match item.get "text" with
      | .str t => t
      | _ => ""

/-- The `message` value the normalizer works on:
`payload.message ?? payload`. -/
def messageOf (payload : JSValue) : JSValue :=
  if (payload.get "message").isNullish then payload else payload.get "message"

/-- The Response Normalizer (source `extractResponseText`). Returns the
JavaScript value the source function returns: a string in every branch
except the final object-content branch, which returns the raw `text`
member (`(message.content as ...).text ?? ''`) without checking that it
is a string. -/
def extractResponseText (payload : JSValue) : JSValue :=
  if payload.truthy = false then .str ""
  else
    match payload with
    | .str s => .str s
    | _ =>
      match payload.get "text" with
      | .str t => .str t
      | _ =>
        match messageOf payload with
        | .str s => .str s
        | message =>
          match message.get "content" with
          | .str c => .str c
          | .arr items => .str (String.join (items.map respItemText))
          | .obj contentFields =>
            if (JSValue.obj contentFields).hasKey "text" then
              match (JSValue.obj contentFields).get "text" with
              | .null => .str ""
              | .undefinedV => .str ""
              | t => t
            else .str ""
          | _ => .str ""

/-- The local non-streaming extractor defined inside sendMessage
(source `extractContent`). It can throw: when `message.content` is
null, `typeof null` is "object" and the `in` operator on null raises a
TypeError, modelled as the `Except.error` case. In the array branch it
returns only the first element's `text` when that is truthy; with no
array match it falls through, where `text in content` is false for
arrays and non-objects. -/
def extractContent (response : JSValue) : Except Unit JSValue :=
  if (response.get "message").truthy = false then .ok (.str "No response.")
  else
    match response.get "message" with
    | .str s => .ok (.str s)
    | .obj msgFields =>
      let message := JSValue.obj msgFields
      match message.get "content" with
      | .str c => .ok (.str c)
      | .null => .error ()
      | .arr items =>
        match items.head? with
        | some first =>
          if (first.get "text").truthy then .ok (first.get "text")
          else .ok (.str "No response.")
        | none => .ok (.str "No response.")
      | .obj contentFields =>
        if (JSValue.obj contentFields).hasKey "text" then
          .ok ((JSValue.obj contentFields).get "text")
        else .ok (.str "No response.")
      | _ => .ok (.str "No response.")
    | .arr _ =>
      -- an array message has no content property, so every inner
      -- check fails and control falls through to the final fallback
      .ok (.str "No response.")
    | _ => .ok (.str "No response.")

example : extractResponseText (.str "hi") = .str "hi" := rfl
example :
    extractResponseText
      (.obj [("message", .obj [("content",
        .arr [.obj [("text", .str "A")], .obj [("text", .str "B")]])])]) =
    .str "AB" := rfl
example :
    extractContent
      (.obj [("message", .obj [("content",
        .arr [.obj [("text", .str "A")], .obj [("text", .str "B")]])])]) =
    .ok (.str "A") := rfl
example :
    extractResponseText (.obj [("content", .obj [("text", .num 42)])]) =
    .num 42 := rfl
example : extractResponseText (.bool true) = .str "" := rfl
example :
    extractContent (.obj [("message", .obj [("content", .null)])]) =
    .error () := rfl

/-- The controller's UI status (source `StatusType`). -/
inductive Status where
  | ready
  | thinking
  | error
deriving Repr, DecidableEq

/-- Message author role. -/
inductive Role where
  | user
  | assistant
deriving Repr, DecidableEq

/-- A typed content part (source `MessagePart`): text, or a reference
to an uploaded file by its remote path. -/
inductive MessagePart where
  | text (text : String)
  | file (puter_path : String)
deriving Repr, DecidableEq

/-- The file data behind an attachment (the fields the core reads from
a browser `File`). -/
structure FileData where
  name : String
  size : Nat
  type : String
deriving Repr, DecidableEq

/-- An attachment record (source `Attachment`). -/
structure Attachment where
  id : String
  file : Option FileData := none
  name : String
  size : Nat
  type : String
  previewUrl : Option String := none
  isImage : Bool
  puterPath : Option String := none
  uploadProgress : Option Nat := none
deriving Repr, DecidableEq

/-- Message content (source `MessageContent`): a plain string or a list
of typed parts. The `jsval` constructor embeds the dynamically typed
value the non-streaming fallback extractor can assign (its `return
message.content.text` is unchecked); string results are normalised to
the `str` constructor. -/
inductive MessageContent where
  | str (s : String)
  | parts (ps : List MessagePart)
  | jsval (v : JSValue)
deriving Repr

/-- A chat message (source `Message`): the display log additionally
carries sanitized attachments, the assistant video reply carries a
video URL, and the in-flight placeholder carries the streaming flag. -/
structure Message where
  role : Role
  content : MessageContent
  attachments : List Attachment := []
  videoUrl : Option String := none
  isStreaming : Bool := false
deriving Repr

/-- Attachment constraints (source `AttachmentConfig`). -/
structure AttachmentConfig where
  maxSize : Nat
  maxCount : Nat
  allowedTypes : List String
deriving Repr, DecidableEq

/-- The configured constraints (source `attachmentConfig`). -/
def attachmentConfig : AttachmentConfig :=
  { maxSize := 10 * 1024 * 1024
    maxCount := 5
    allowedTypes :=
      ["image/jpeg", "image/jpg", "image/png", "image/gif", "image/webp",
       "image/svg+xml", "application/pdf", "application/msword",
       "application/vnd.openxmlformats-officedocument.wordprocessingml.document",
       "text/plain", "text/markdown"] }

/-- Why a candidate file was rejected. The source renders these as
message strings (the size message via a float-formatting helper that is
pure display and not modelled); only which rule fired matters here. -/
inductive FileIssue where
  | typeNotSupported (t : String)
  | sizeExceeded
  | tooManyFiles
deriving Repr, DecidableEq

/-- Attachment validation (source `validateFile`): checks, in order,
the MIME allow-list, the size ceiling, then the running count against
the maximum; `none` means accepted. -/
def validateFile (cfg : AttachmentConfig) (file : FileData)
    (currentCount : Nat) : Option FileIssue :=
  if cfg.allowedTypes.contains file.type = false then
    some (FileIssue.typeNotSupported file.type)
  else if cfg.maxSize < file.size then
    some FileIssue.sizeExceeded
  else if cfg.maxCount ≤ currentCount then
    some FileIssue.tooManyFiles
  else
    none

/-- The loop body of `addAttachments`: walk the candidate files with a
running count that only accepted files increment; accepted files become
attachment records (record construction `createAttachment` is supplied
as `mk`, since ids and preview URLs come from browser APIs), rejected
files become per-file error reports. -/
def addLoop (cfg : AttachmentConfig) (mk : FileData → Attachment)
    (runningCount : Nat) :
    List FileData → List Attachment × List (String × FileIssue)
  | [] => ([], [])
  | file :: rest =>
    match validateFile cfg file runningCount with
    | some issue =>
      let r := addLoop cfg mk runningCount rest
      (r.1, (file.name, issue) :: r.2)
    | none =>
      let r := addLoop cfg mk (runningCount + 1) rest
      (mk file :: r.1, r.2)

/-- The state update of `addAttachments`: the running count starts at
the current collection's length, accepted files are appended after the
current attachments, and rejected files only produce error reports
(logged, never added). -/
def addAttachments (cfg : AttachmentConfig) (mk : FileData → Attachment)
    (current : List Attachment) (files : List FileData) :
    List Attachment × List (String × FileIssue) :=
  let r := addLoop cfg mk current.length files
  (current ++ r.1, r.2)

/-- Display-sanitized copy of attachments (source `sanitizeAttachments`):
keeps id, name, size, type, previewUrl, isImage and puterPath, drops
the local file handle and upload progress. -/
def sanitizeAttachments (items : List Attachment) : List Attachment :=
  items.map (fun a =>
    { id := a.id, name := a.name, size := a.size, type := a.type,
      previewUrl := a.previewUrl, isImage := a.isImage,
      puterPath := a.puterPath })

/-- The loop of `uploadAttachments`. `paths` is the storage capability:
the remote path returned by the i-th `fs.write` call (temp-name
generation is time- and randomness-based and is absorbed into this
oracle). Attachments without a local file are skipped; each written
attachment drops its file handle and records the returned path, which
is also recorded in the session file set. Returns the uploaded list,
the paths written in call order, and the next write index. -/
def uploadLoop (paths : Nat → String) (i : Nat) :
    List Attachment → List Attachment × List String × Nat
  | [] => ([], [], i)
  | att :: rest =>
    match att.file with
    | none => uploadLoop paths i rest
    | some _ =>
      let p := paths i
      let r := uploadLoop paths (i + 1) rest
      ({ att with file := none, puterPath := some p } :: r.1,
       p :: r.2.1, r.2.2)

/-- Build the API-facing user message content (source
`buildUserMessageContent`): with no uploaded attachments the plain
text; otherwise file parts for every attachment whose recorded path is
truthy (`Boolean(att.puterPath)` — an empty-string path is dropped),
followed by a text part only when the text is non-empty. -/
def buildUserMessageContent (text : String) (uploaded : List Attachment) :
    MessageContent :=
  if uploaded.length = 0 then MessageContent.str text
  else
    let fileParts := (uploaded.filter (fun a =>
        match a.puterPath with
        | some p => p != ""
        | none => false)).map (fun a => MessagePart.file (a.puterPath.getD ""))
    let ps := if text ≠ "" then fileParts ++ [MessagePart.text text] else fileParts
    MessageContent.parts ps

/-- Session-file cleanup (source `cleanupSessionFiles`). `fsPresent` is
whether the storage capability exists; `fsDelete` reports whether the
deletion of a path succeeds. Every recorded path's deletion is
attempted inside its own try/catch (failures are logged only), the
attempts are awaited together (`Promise.allSettled`), then the set is
cleared. Without the capability the call is a silent no-op. Returns the
attempted deletions (path, success) in order and the new session set. -/
def cleanupSessionFiles (fsPresent : Bool) (fsDelete : String → Bool)
    (sessionFiles : List String) : List (String × Bool) × List String :=
  if fsPresent then (sessionFiles.map (fun p => (p, fsDelete p)), [])
  else ([], sessionFiles)

/-- A thrown/rejected error value: either a native `Error` instance
(carrying its message) or an arbitrary JavaScript value. -/
inductive ErrValue where
  | native (message : String)
  | js (v : JSValue)
deriving Repr

/-- `typeof v === "object"` (true for null, arrays and objects). -/
def typeofObject : JSValue → Bool
  | .null => true
  | .arr _ => true
  | .obj _ => true
  | _ => false

/-- Best-effort error message extraction from the catch block of
sendMessage, already coerced to the string the template literal
`Error: ...` produces. Priority: a native error's message; a truthy
nested `error.message`; a truthy `message`; a JSON-stringified object
(the stringify try/catch cannot fail on tree-shaped values, so the
"Unknown error object" arm is unreachable in this model); a raw string;
otherwise the initial "Failed to get response". -/
def extractErrorText : ErrValue → String
  | .native m => m
  | .js v =>
    if ((v.get "error").get "message").truthy then
      jsToString ((v.get "error").get "message")
    else if (v.get "message").truthy then
      jsToString (v.get "message")
    else if typeofObject v then
      (jsonStringify v).getD "undefined"
    else
      match v with
      | .str s => s
      | _ => "Failed to get response"

/-- The outcome of the chat capability call: an async-iterable stream
(its yielded chunks, and optionally an error thrown after them), a
single non-streaming payload, or a rejection of the call itself. -/
inductive ChatResponse where
  | stream (chunks : List JSValue) (err : Option ErrValue)
  | value (v : JSValue)
  | reject (e : ErrValue)

/-- The external collaborators and selected model for one send:
whether the SDK and its storage capability are present, the remote path
returned by the i-th `fs.write` call, the video-generation result, and
the chat call's outcome. -/
structure Env where
  modelId : String
  puterPresent : Bool
  fsPresent : Bool
  paths : Nat → String
  videoResult : Except ErrValue String
  chatResult : ChatResponse

/-- The component state sendMessage reads and writes: the display log
(`messages`), the API log (`conversationRef`), the UI status, the input
field, the pending attachments, the session file set and the write
oracle cursor. -/
structure ChatState where
  messages : List Message
  conversation : List Message
  status : Status
  input : String
  attachments : List Attachment
  sessionFiles : List String
  writeIndex : Nat := 0

/-- The result of one sendMessage invocation: the new state, the
sequence of `setStatus` assignments it performed in order, and the
delay of the scheduled error-to-ready timer when one was set. -/
structure SendOutcome where
  state : ChatState
  statusSets : List Status
  errorDelayMs : Option Nat

/-- Per-chunk text extraction in the streaming loop
(`typeof part === "string" ? part : (part?.text || "")`), coerced to
the string that `fullContent += text` appends. -/
def chunkText (part : JSValue) : String :=
  match part with
  | .str s => s
  | _ => if (part.get "text").truthy then jsToString (part.get "text") else ""

/-- The setMessages updater run on every chunk: replace the last
message's content when it exists and is an assistant message. The
placeholder object is shared between the two logs, so the in-place
`lastMsg.content = fullContent` mutation is visible in both; the model
applies the update to each log explicitly. -/
def setLastContent (msgs : List Message) (c : MessageContent) : List Message :=
  match msgs.getLast? with
  | some m =>
    if m.role = Role.assistant then msgs.dropLast ++ [{ m with content := c }]
    else msgs
  | none => msgs

/-- Accumulator of the streaming loop: the accumulated buffer, both
logs, whether the first chunk already arrived, and the setStatus trace. -/
structure StreamAcc where
  full : String
  messages : List Message
  conversation : List Message
  gotFirst : Bool
  trace : List Status

/-- One iteration of the `for await` loop: on the first chunk status
becomes ready; the chunk text is appended to the buffer; the displayed
assistant content is replaced with the whole buffer. -/
def streamStep (acc : StreamAcc) (part : JSValue) : StreamAcc :=
  let tr := if acc.gotFirst then acc.trace else acc.trace ++ [Status.ready]
  let full := acc.full ++ chunkText part
  { full := full
    messages := setLastContent acc.messages (MessageContent.str full)
    conversation := setLastContent acc.conversation (MessageContent.str full)
    gotFirst := true
    trace := tr }

/-- Consume the stream's chunks in arrival order. -/
def runStream (acc : StreamAcc) (chunks : List JSValue) : StreamAcc :=
  chunks.foldl streamStep acc

/-- `xs[xs.length - 1] = m`: replaces the last element; on an empty
array the JavaScript assignment to index -1 leaves the elements alone. -/
def replaceLast (msgs : List Message) (m : Message) : List Message :=
  match msgs with
  | [] => []
  | _ => msgs.dropLast ++ [m]

/-- Normalise the dynamically typed value the non-streaming extractor
produced into message content (strings stay strings). -/
def contentOfJS : JSValue → MessageContent
  | .str s => MessageContent.str s
  | v => MessageContent.jsval v

/-- The last status assignment of a trace (the status the component is
left in), with the pre-send status as fallback for an empty trace. -/
def lastStatus (tr : List Status) (dflt : Status) : Status :=
  tr.getLast?.getD dflt

/-- The guard's early return: state untouched, nothing set. -/
def noopOutcome (st : ChatState) : SendOutcome :=
  { state := st, statusSets := [], errorDelayMs := none }

/-- The catch block: append a display-only assistant bubble
`Error: <extracted>`, leave the API log as the failure point left it,
set status to error and schedule the 3000 ms return to ready. -/
def errorOutcome (e : ErrValue) (msgs conv : List Message)
    (sess : List String) (wi : Nat) (tr : List Status) : SendOutcome :=
  let errorMessage : Message :=
    { role := Role.assistant
      content := MessageContent.str ("Error: " ++ extractErrorText e) }
  { state :=
      { messages := msgs ++ [errorMessage], conversation := conv,
        status := Status.error, input := "", attachments := [],
        sessionFiles := sess, writeIndex := wi }
    statusSets := tr ++ [Status.error]
    errorDelayMs := some 3000 }

/-- The error timer firing 3 seconds after an error: status returns to
ready, nothing else changes and nothing is retried. -/
def fireErrorTimer (st : ChatState) : ChatState :=
  { st with status := Status.ready }

/-- `String.prototype.trim`: drop leading and trailing whitespace
(embedded structurally so that concrete runs compute). -/
def jsTrim (s : String) : String :=
  String.mk
    (((s.data.dropWhile Char.isWhitespace).reverse.dropWhile
        Char.isWhitespace).reverse)

/-- The sendMessage flow. Guard: not already thinking, and non-empty
trimmed text or a pending attachment. Then: snapshot and clear the
input and attachments, set thinking, append the display user message;
throw without the SDK; the designated video model goes through the
video capability and appends its assistant reply to both logs (the user
turn reaches only the display log on that path); otherwise upload
attachments (throwing without the storage capability), append the
API-shaped user message to the API log, invoke chat, append the shared
streaming placeholder to both logs, keep thinking, then consume the
response (streaming or fallback extraction) and collapse the
placeholder into the final assistant message in both logs. Any throw
lands in the catch block (`errorOutcome`). Web-search options for the
grok family only shape the request and are absorbed into `chatResult`;
the video prompt and input reference are likewise absorbed into
`videoResult`. -/
def sendMessage (env : Env) (st : ChatState) : SendOutcome :=
  if st.status = Status.thinking ∨ (jsTrim st.input = "" ∧ st.attachments = []) then
    noopOutcome st
  else
    let textToSend := jsTrim st.input
    let attachmentsToSend := st.attachments
    let tr0 : List Status := [Status.thinking]
    let displayAttachments := sanitizeAttachments attachmentsToSend
    let userMessageDisplay : Message :=
      { role := Role.user
        content := MessageContent.str
          (if textToSend ≠ "" then textToSend
           else if displayAttachments.length ≠ 0 then "[Attachment]" else "")
        attachments := displayAttachments }
    let msgs1 := st.messages ++ [userMessageDisplay]
    if env.puterPresent = false then
      errorOutcome (ErrValue.native "Puter SDK not loaded")
        msgs1 st.conversation st.sessionFiles st.writeIndex tr0
    else if env.modelId = "video-generation" then
      match env.videoResult with
      | Except.error e =>
        errorOutcome e msgs1 st.conversation st.sessionFiles st.writeIndex tr0
      | Except.ok url =>
        let assistantMessage : Message :=
          { role := Role.assistant
            content := MessageContent.str "Here is your generated video:"
            videoUrl := some url }
        { state :=
            { messages := msgs1 ++ [assistantMessage]
              conversation := st.conversation ++ [assistantMessage]
              status := Status.ready, input := "", attachments := []
              sessionFiles := st.sessionFiles, writeIndex := st.writeIndex }
          statusSets := tr0 ++ [Status.ready]
          errorDelayMs := none }
    else if attachmentsToSend ≠ [] ∧ env.fsPresent = false then
      errorOutcome
        (ErrValue.native "File uploads are not supported in this environment.")
        msgs1 st.conversation st.sessionFiles st.writeIndex tr0
    else
      let up := uploadLoop env.paths st.writeIndex attachmentsToSend
      let uploadedFiles := up.1
      let sess1 := st.sessionFiles ++ up.2.1
      let wi1 := up.2.2
      let apiContent := buildUserMessageContent textToSend uploadedFiles
      let userMessageForApi : Message :=
        { role := Role.user, content := apiContent }
      let conv1 := st.conversation ++ [userMessageForApi]
      match env.chatResult with
      | ChatResponse.reject e => errorOutcome e msgs1 conv1 sess1 wi1 tr0
      | ChatResponse.stream chunks errOpt =>
        let assistantMessage : Message :=
          { role := Role.assistant, content := MessageContent.str ""
            isStreaming := true }
        let conv2 := conv1 ++ [assistantMessage]
        let msgs2 := msgs1 ++ [assistantMessage]
        let tr1 := tr0 ++ [Status.thinking]
        let acc := runStream
          { full := "", messages := msgs2, conversation := conv2,
            gotFirst := false, trace := tr1 } chunks
        match errOpt with
        | some e => errorOutcome e acc.messages acc.conversation sess1 wi1 acc.trace
        | none =>
          let finalMessage : Message :=
            { role := Role.assistant, content := MessageContent.str acc.full }
          { state :=
              { messages := replaceLast acc.messages finalMessage
                conversation := replaceLast acc.conversation finalMessage
                status := lastStatus acc.trace st.status
                input := "", attachments := []
                sessionFiles := sess1, writeIndex := wi1 }
            statusSets := acc.trace
            errorDelayMs := none }
      | ChatResponse.value v =>
        let assistantMessage : Message :=
          { role := Role.assistant, content := MessageContent.str ""
            isStreaming := true }
        let conv2 := conv1 ++ [assistantMessage]
        let msgs2 := msgs1 ++ [assistantMessage]
        let tr1 := tr0 ++ [Status.thinking]
        match extractContent v with
        | Except.error _ =>
          -- the TypeError raised by the in operator on a null content
          errorOutcome
            (ErrValue.native "Cannot use 'in' operator to search for 'text' in null")
            msgs2 conv2 sess1 wi1 tr1
        | Except.ok answer =>
          let finalMessage : Message :=
            { role := Role.assistant, content := contentOfJS answer }
          { state :=
              { messages := replaceLast msgs2 finalMessage
                conversation := replaceLast conv2 finalMessage
                status := Status.ready, input := "", attachments := []
                sessionFiles := sess1, writeIndex := wi1 }
            statusSets := tr1 ++ [Status.ready]
            errorDelayMs := none }

/-- The files of a batch that `addAttachments` accepts, walked with the
same running count discipline as the loop (only accepted files
increment it). -/
def acceptedFiles (cfg : AttachmentConfig) (runningCount : Nat) :
    List FileData → List FileData
  | [] => []
  | f :: rest =>
    match validateFile cfg f runningCount with
    | some _ => acceptedFiles cfg runningCount rest
    | none => f :: acceptedFiles cfg (runningCount + 1) rest

lemma validateFile_isSome_of_count (cfg : AttachmentConfig) (f : FileData)
    (c : Nat) (h : cfg.maxCount ≤ c) : (validateFile cfg f c).isSome = true := by
  unfold validateFile
  split
  · rfl
  · split
    · rfl
    · simp [h]

lemma addLoop_fst (cfg : AttachmentConfig) (mk : FileData → Attachment) :
    ∀ (files : List FileData) (running : Nat),
      (addLoop cfg mk running files).1 =
        (acceptedFiles cfg running files).map mk
  | [], _ => rfl
  | f :: rest, running => by
    unfold addLoop acceptedFiles
    cases h : validateFile cfg f running <;>
      simp [h, addLoop_fst cfg mk rest]

lemma acceptedFiles_nil_of_full (cfg : AttachmentConfig) :
    ∀ (files : List FileData) (running : Nat), cfg.maxCount ≤ running →
      acceptedFiles cfg running files = []
  | [], _, _ => rfl
  | f :: rest, running, h => by
    unfold acceptedFiles
    cases hv : validateFile cfg f running with
    | some _ => exact acceptedFiles_nil_of_full cfg rest running h
    | none =>
      have := validateFile_isSome_of_count cfg f running h
      rw [hv] at this
      cases this

lemma acceptedFiles_length_le (cfg : AttachmentConfig) :
    ∀ (files : List FileData) (running : Nat),
      (acceptedFiles cfg running files).length + running ≤
        max cfg.maxCount running
  | [], running => by
    simp only [acceptedFiles, List.length_nil, Nat.zero_add]
    omega
  | f :: rest, running => by
    unfold acceptedFiles
    cases hv : validateFile cfg f running with
    | some _ =>
      exact acceptedFiles_length_le cfg rest running
    | none =>
      have hlt : running < cfg.maxCount := by
        by_contra hge
        have := validateFile_isSome_of_count cfg f running (Nat.le_of_not_lt hge)
        rw [hv] at this
        cases this
      have ih := acceptedFiles_length_le cfg rest (running + 1)
      simp only [List.length_cons]
      omega

/-- C7: attachment validation is deterministic — a file with a MIME
type outside the allow-list is rejected regardless of size or count; an
allowed file over the size ceiling is rejected; any candidate checked
against a running count at or past the maximum is rejected; a batch
adds exactly the accepted files (in order) after the current
collection, rejected files never enter it; a batch starting at the
maximum adds nothing; and the accepted files can never push the
collection past the maximum count. -/
theorem c7_attachment_validation (cfg : AttachmentConfig)
    (mk : FileData → Attachment) (current : List Attachment)
    (files : List FileData) (f : FileData) (c : Nat) :
    (cfg.allowedTypes.contains f.type = false →
      validateFile cfg f c = some (FileIssue.typeNotSupported f.type)) ∧
    (cfg.allowedTypes.contains f.type = true → cfg.maxSize < f.size →
      validateFile cfg f c = some FileIssue.sizeExceeded) ∧
    (cfg.maxCount ≤ c → (validateFile cfg f c).isSome = true) ∧
    (addAttachments cfg mk current files).1 =
      current ++ (acceptedFiles cfg current.length files).map mk ∧
    (cfg.maxCount ≤ current.length →
      (addAttachments cfg mk current files).1 = current) ∧
    (addAttachments cfg mk current files).1.length ≤
      max cfg.maxCount current.length := by
  refine ⟨?_, ?_, ?_, ?_, ?_, ?_⟩
  · intro h
    unfold validateFile
    rw [if_pos h]
  · intro h1 h2
    unfold validateFile
    rw [if_neg (by rw [h1]; decide), if_pos h2]
  · exact validateFile_isSome_of_count cfg f c
  · simp [addAttachments, addLoop_fst]
  · intro h
    simp [addAttachments, addLoop_fst,
      acceptedFiles_nil_of_full cfg files current.length h]
  · have h := acceptedFiles_length_le cfg files current.length
    have e : (addAttachments cfg mk current files).1 =
        current ++ (acceptedFiles cfg current.length files).map mk := by
      simp [addAttachments, addLoop_fst]
    rw [e, List.length_append, List.length_map]
    omega

/-- The remote paths of a part list's file parts, in order. -/
def partsFilePaths (ps : List MessagePart) : List String :=
  ps.filterMap (fun p =>
    match p with
    | MessagePart.file path => some path
    | MessagePart.text _ => none)

/-- The remote paths referenced by message content: the paths of its
file parts in order (none for plain-string or dynamic content). -/
def contentFilePaths : MessageContent → List String
  | MessageContent.parts ps => partsFilePaths ps
  | _ => []

lemma partsFilePaths_files (ws : List String) (rest : List MessagePart) :
    partsFilePaths (ws.map MessagePart.file ++ rest) =
      ws ++ partsFilePaths rest := by
  induction ws with
  | nil => rfl
  | cons w ws ih => simp_all [partsFilePaths, List.filterMap_cons]

lemma partsFilePaths_text_nil (t : String) :
    partsFilePaths [MessagePart.text t] = [] := rfl

lemma partsFilePaths_files_only (ws : List String) :
    partsFilePaths (ws.map MessagePart.file) = ws := by
  have h := partsFilePaths_files ws []
  simpa [partsFilePaths] using h

lemma uploadLoop_puterPaths (paths : Nat → String) :
    ∀ (atts : List Attachment) (i : Nat),
      (uploadLoop paths i atts).1.map (fun a => a.puterPath) =
        ((uploadLoop paths i atts).2.1).map some
  | [], _ => rfl
  | att :: rest, i => by
    unfold uploadLoop
    cases att.file <;>
      simp [uploadLoop_puterPaths paths rest]

lemma uploadLoop_fileParts (paths : Nat → String)
    (hpaths : ∀ j, paths j ≠ "") :
    ∀ (atts : List Attachment) (i : Nat),
      (((uploadLoop paths i atts).1.filter (fun a =>
          match a.puterPath with
          | some p => p != ""
          | none => false)).map
        (fun a => MessagePart.file (a.puterPath.getD ""))) =
        ((uploadLoop paths i atts).2.1).map MessagePart.file
  | [], _ => rfl
  | att :: rest, i => by
    unfold uploadLoop
    cases h : att.file with
    | none => exact uploadLoop_fileParts paths hpaths rest i
    | some fd =>
      have hne : paths i ≠ "" := hpaths i
      simp only [List.filter_cons, List.map_cons]
      rw [if_pos (by simp [hne])]
      simp [uploadLoop_fileParts paths hpaths rest (i + 1)]

/-- C8: uploading then referencing round-trips — the file parts of the
built API content carry exactly the remote paths returned by the
storage writes, in write order (which follows the attachments' relative
order, skipping those without a local file); a trailing text part is
present exactly when the text is non-empty; and with no uploaded
attachments the content is the plain text string. `paths j` is the
remote path returned by the j-th write; real remote paths are
non-empty. -/
theorem c8_upload_roundtrip (paths : Nat → String) (i : Nat)
    (text : String) (atts : List Attachment)
    (hpaths : ∀ j, paths j ≠ "") :
    contentFilePaths (buildUserMessageContent text (uploadLoop paths i atts).1) =
      (uploadLoop paths i atts).2.1 ∧
    (uploadLoop paths i atts).1.map (fun a => a.puterPath) =
      ((uploadLoop paths i atts).2.1).map some ∧
    ((uploadLoop paths i atts).1 ≠ [] → text ≠ "" →
      buildUserMessageContent text (uploadLoop paths i atts).1 =
        MessageContent.parts
          (((uploadLoop paths i atts).2.1).map MessagePart.file ++
            [MessagePart.text text])) ∧
    ((uploadLoop paths i atts).1 ≠ [] → text = "" →
      buildUserMessageContent text (uploadLoop paths i atts).1 =
        MessageContent.parts
          (((uploadLoop paths i atts).2.1).map MessagePart.file)) ∧
    ((uploadLoop paths i atts).1 = [] →
      buildUserMessageContent text (uploadLoop paths i atts).1 =
        MessageContent.str text) := by
  have hparts := uploadLoop_fileParts paths hpaths atts i
  have hlink := uploadLoop_puterPaths paths atts i
  have hwnil : (uploadLoop paths i atts).1 = [] →
      (uploadLoop paths i atts).2.1 = [] := by
    intro hu
    have h := hlink
    rw [hu] at h
    rcases hw : (uploadLoop paths i atts).2.1 with _ | ⟨w, ws⟩
    · rfl
    · rw [hw] at h
      cases h
  refine ⟨?_, hlink, ?_, ?_, ?_⟩
  · by_cases hup : (uploadLoop paths i atts).1.length = 0
    · have hu : (uploadLoop paths i atts).1 = [] :=
        List.length_eq_zero.mp hup
      rw [hwnil hu]
      unfold buildUserMessageContent
      rw [if_pos hup]
      rfl
    · unfold buildUserMessageContent
      rw [if_neg hup]
      by_cases ht : text ≠ ""
      · simp [ht, hparts, contentFilePaths, partsFilePaths_files,
          partsFilePaths_text_nil]
      · simp [ht, hparts, contentFilePaths, partsFilePaths_files_only]
  · intro hne ht
    unfold buildUserMessageContent
    rw [if_neg (by simp [hne])]
    simp [ht, hparts]
  · intro hne ht
    unfold buildUserMessageContent
    rw [if_neg (by simp [hne])]
    simp [ht, hparts]
  · intro hnil
    unfold buildUserMessageContent
    rw [if_pos (by simp [hnil])]

/-- C9: session cleanup is idempotent and failure-isolated — with the
storage capability present, one call attempts the deletion of every
recorded path exactly once (each with its own outcome, independent of
the other outcomes), the tracked set is empty afterwards, and a second
call attempts no deletion and reports no error. -/
theorem c9_cleanup_idempotent (fsDelete : String → Bool)
    (sess : List String) :
    (cleanupSessionFiles true fsDelete sess).2 = [] ∧
    (cleanupSessionFiles true fsDelete sess).1 =
      sess.map (fun p => (p, fsDelete p)) ∧
    (∀ p ∈ sess, (p, fsDelete p) ∈ (cleanupSessionFiles true fsDelete sess).1) ∧
    (∀ g : String → Bool,
      (cleanupSessionFiles true g sess).1.length = sess.length) ∧
    cleanupSessionFiles true fsDelete
      ((cleanupSessionFiles true fsDelete sess).2) = ([], []) := by
  refine ⟨rfl, rfl, ?_, ?_, rfl⟩
  · intro p hp
    simp [cleanupSessionFiles]
    exact ⟨p, hp, rfl, rfl⟩
  · intro g
    simp [cleanupSessionFiles]

/-- Whether a value is an array. -/
def JSValue.isArr : JSValue → Bool
  | .arr _ => true
  | _ => false

/-- Whether a value is a plain object. -/
def JSValue.isObj : JSValue → Bool
  | .obj _ => true
  | _ => false

/-- The shapes of the normalizer's priority list that select a branch
before the final fallback: a string payload, a string `text` field, a
string message, a string content, an array content, or an object
content carrying a `text` key. -/
def recognizedShape (payload : JSValue) : Bool :=
  payload.isStr || (payload.get "text").isStr || (messageOf payload).isStr ||
  ((messageOf payload).get "content").isStr ||
  ((messageOf payload).get "content").isArr ||
  (((messageOf payload).get "content").isObj &&
    ((messageOf payload).get "content").hasKey "text")

/-- C6 (amended): the Response Normalizer is total and never throws,
and every shape outside the priority list yields the empty string; but
its result is not always a string — in the object-content branch it
returns the content's raw `text` member unchanged, whatever its type. -/
theorem c6_normalizer_total_amended (payload : JSValue) :
    ((extractResponseText payload).isStr = true ∨
      extractResponseText payload =
        ((messageOf payload).get "content").get "text") ∧
    (recognizedShape payload = false →
      extractResponseText payload = JSValue.str "") := by
  constructor
  · unfold extractResponseText
    split
    · left; rfl
    · split
      · left; rfl
      · split
        · left; rfl
        · split
          · left; rfl
          · split
            · left; rfl
            · left; rfl
            · rename_i fieldsc hcontent
              split
              · split
                · left; rfl
                · left; rfl
                · right
                  rw [hcontent]
              · left; rfl
            · left; rfl
  · intro h
    simp only [recognizedShape, Bool.or_eq_false_iff, Bool.and_eq_false_iff] at h
    obtain ⟨⟨⟨⟨⟨hps, hts⟩, hms⟩, hcs⟩, hca⟩, hco⟩ := h
    unfold extractResponseText
    split
    · rfl
    · split
      · simp [JSValue.isStr] at hps
      · split
        · rename_i t heq
          rw [heq] at hts
          simp [JSValue.isStr] at hts
        · split
          · rename_i s heq
            rw [heq] at hms
            simp [JSValue.isStr] at hms
          · split
            · rename_i c heq
              rw [heq] at hcs
              simp [JSValue.isStr] at hcs
            · rename_i items heq
              rw [heq] at hca
              simp [JSValue.isArr] at hca
            · rename_i fieldsc hcontent
              rw [hcontent] at hco
              rcases hco with hno | hnk
              · simp [JSValue.isObj] at hno
              · rw [if_neg (by simp [hnk])]
            · rfl

/-- C6 counterexample: a payload whose message content is an object
with a numeric `text` member makes the normalizer return the number 42
itself, not a string. -/
theorem c6_counterexample :
    extractResponseText
        (JSValue.obj [("content", JSValue.obj [("text", JSValue.num 42)])]) =
      JSValue.num 42 ∧
    (extractResponseText
        (JSValue.obj [("content", JSValue.obj [("text", JSValue.num 42)])])).isStr =
      false :=
  ⟨rfl, rfl⟩

/-- C5 counterexample: on a response whose message content is the part
sequence [text "A", text "B"], the non-streaming fallback extractor
returns only "A" (the first part), while the full Response Normalizer
of section 4.1 returns the concatenation "AB". -/
theorem c5_counterexample :
    extractContent
        (JSValue.obj [("message", JSValue.obj [("content",
          JSValue.arr [JSValue.obj [("text", JSValue.str "A")],
            JSValue.obj [("text", JSValue.str "B")]])])]) =
      Except.ok (JSValue.str "A") ∧
    extractResponseText
        (JSValue.obj [("message", JSValue.obj [("content",
          JSValue.arr [JSValue.obj [("text", JSValue.str "A")],
            JSValue.obj [("text", JSValue.str "B")]])])]) =
      JSValue.str "AB" ∧
    JSValue.str "A" ≠ JSValue.str "AB" := by
  refine ⟨rfl, rfl, ?_⟩
  intro h
  injection h with h2
  exact absurd h2 (by decide)

/-- C5 (amended): the non-streaming fallback path runs its own local
extractor, not the full Response Normalizer — when the message's
content is an array whose first element has a truthy `text`, the result
is that first `text` alone, while the normalizer concatenates the text
of every part. -/
theorem c5_fallback_first_part_only (msgRest : List (String × JSValue))
    (first : JSValue) (rest : List JSValue)
    (h : (first.get "text").truthy = true) :
    extractContent
        (JSValue.obj [("message",
          JSValue.obj (("content", JSValue.arr (first :: rest)) :: msgRest))]) =
      Except.ok (first.get "text") ∧
    extractResponseText
        (JSValue.obj [("message",
          JSValue.obj (("content", JSValue.arr (first :: rest)) :: msgRest))]) =
      JSValue.str (String.join ((first :: rest).map respItemText)) := by
  constructor
  · show (if (first.get "text").truthy = true then Except.ok (first.get "text")
        else Except.ok (JSValue.str "No response.")) =
      Except.ok (first.get "text")
    rw [if_pos h]
  · unfold extractResponseText
    rw [if_neg (by simp [JSValue.truthy])]
    simp [JSValue.get, messageOf, JSValue.isNullish]

/-- The concatenation of the texts of a chunk sequence, in arrival
order, with no separator. -/
def concatTexts : List JSValue → String
  | [] => ""
  | c :: cs => chunkText c ++ concatTexts cs

lemma setLastContent_concat (base : List Message) (m : Message)
    (c : MessageContent) (h : m.role = Role.assistant) :
    setLastContent (base ++ [m]) c = base ++ [{ m with content := c }] := by
  simp [setLastContent, List.getLast?_concat, h]

lemma runStream_spec :
    ∀ (chunks : List JSValue) (full : String) (base cbase : List Message)
      (m mc : Message) (g : Bool) (tr : List Status),
      m.role = Role.assistant → mc.role = Role.assistant →
      runStream
        { full := full
          messages := base ++ [{ m with content := MessageContent.str full }]
          conversation :=
            cbase ++ [{ mc with content := MessageContent.str full }]
          gotFirst := g, trace := tr } chunks =
      { full := full ++ concatTexts chunks
        messages := base ++
          [{ m with content := MessageContent.str (full ++ concatTexts chunks) }]
        conversation := cbase ++
          [{ mc with content := MessageContent.str (full ++ concatTexts chunks) }]
        gotFirst := g || !chunks.isEmpty
        trace :=
          if g then tr else if chunks.isEmpty then tr else tr ++ [Status.ready] }
  | [], full, base, cbase, m, mc, g, tr, hm, hmc => by
    simp [runStream, concatTexts, String.append_empty]
  | c :: cs, full, base, cbase, m, mc, g, tr, hm, hmc => by
    have step :
        streamStep
          { full := full
            messages := base ++ [{ m with content := MessageContent.str full }]
            conversation :=
              cbase ++ [{ mc with content := MessageContent.str full }]
            gotFirst := g, trace := tr } c =
        { full := full ++ chunkText c
          messages := base ++
            [{ m with content := MessageContent.str (full ++ chunkText c) }]
          conversation := cbase ++
            [{ mc with content := MessageContent.str (full ++ chunkText c) }]
          gotFirst := true
          trace := if g then tr else tr ++ [Status.ready] } := by
      simp only [streamStep]
      rw [setLastContent_concat base _ _
          (show ({ m with content := MessageContent.str full } : Message).role =
            Role.assistant from hm),
        setLastContent_concat cbase _ _
          (show ({ mc with content := MessageContent.str full } : Message).role =
            Role.assistant from hmc)]
    have ih := runStream_spec cs (full ++ chunkText c) base cbase m mc true
      (if g then tr else tr ++ [Status.ready]) hm hmc
    show runStream _ (c :: cs) = _
    rw [show runStream
        { full := full
          messages := base ++ [{ m with content := MessageContent.str full }]
          conversation :=
            cbase ++ [{ mc with content := MessageContent.str full }]
          gotFirst := g, trace := tr } (c :: cs) =
      runStream (streamStep
        { full := full
          messages := base ++ [{ m with content := MessageContent.str full }]
          conversation :=
            cbase ++ [{ mc with content := MessageContent.str full }]
          gotFirst := g, trace := tr } c) cs from rfl]
    rw [step, ih]
    simp [concatTexts, String.append_assoc]

lemma sendMessage_noop_of_thinking (env : Env) (st : ChatState)
    (h : st.status = Status.thinking) : sendMessage env st = noopOutcome st := by
  unfold sendMessage
  rw [if_pos (Or.inl h)]

lemma sendMessage_guard_neg (st : ChatState) (hst : st.status ≠ Status.thinking)
    (htrim : jsTrim st.input ≠ "") :
    ¬(st.status = Status.thinking ∨ (jsTrim st.input = "" ∧ st.attachments = [])) := by
  rintro (h | ⟨h, _⟩)
  · exact hst h
  · exact htrim h

lemma sendMessage_reject_run (env : Env) (st : ChatState) (e : ErrValue)
    (hst : st.status ≠ Status.thinking) (htrim : jsTrim st.input ≠ "")
    (hatt : st.attachments = []) (hpp : env.puterPresent = true)
    (hvid : env.modelId ≠ "video-generation")
    (hchat : env.chatResult = ChatResponse.reject e) :
    sendMessage env st =
      errorOutcome e
        (st.messages ++
          [{ role := Role.user, content := MessageContent.str (jsTrim st.input) }])
        (st.conversation ++
          [{ role := Role.user, content := MessageContent.str (jsTrim st.input) }])
        st.sessionFiles st.writeIndex [Status.thinking] := by
  unfold sendMessage
  rw [if_neg (sendMessage_guard_neg st hst htrim)]
  simp [hatt, hpp, hvid, htrim, hchat, sanitizeAttachments, uploadLoop,
    buildUserMessageContent]

lemma str_empty_append (s : String) : "" ++ s = s := by
  obtain ⟨d⟩ := s
  rfl

lemma replaceLast_concat (xs : List Message) (a m : Message) :
    replaceLast (xs ++ [a]) m = xs ++ [m] := by
  unfold replaceLast
  split
  · rename_i h
    exact absurd h (by simp)
  · rw [List.dropLast_concat]

lemma replaceLast_append_two (xs : List Message) (a b m : Message) :
    replaceLast (xs ++ [a, b]) m = xs ++ [a, m] := by
  have h : xs ++ [a, b] = (xs ++ [a]) ++ [b] := by simp
  rw [h, replaceLast_concat]
  simp

lemma sendMessage_stream_run (env : Env) (st : ChatState)
    (chunks : List JSValue) (errOpt : Option ErrValue)
    (hst : st.status ≠ Status.thinking) (htrim : jsTrim st.input ≠ "")
    (hatt : st.attachments = []) (hpp : env.puterPresent = true)
    (hvid : env.modelId ≠ "video-generation")
    (hchat : env.chatResult = ChatResponse.stream chunks errOpt) :
    sendMessage env st =
      (match errOpt with
      | some e =>
        errorOutcome e
          (st.messages ++
            [{ role := Role.user, content := MessageContent.str (jsTrim st.input) },
             { role := Role.assistant,
               content := MessageContent.str (concatTexts chunks),
               isStreaming := true }])
          (st.conversation ++
            [{ role := Role.user, content := MessageContent.str (jsTrim st.input) },
             { role := Role.assistant,
               content := MessageContent.str (concatTexts chunks),
               isStreaming := true }])
          st.sessionFiles st.writeIndex
          (if chunks.isEmpty then [Status.thinking, Status.thinking]
           else [Status.thinking, Status.thinking, Status.ready])
      | none =>
        { state :=
            { messages := st.messages ++
                [{ role := Role.user,
                   content := MessageContent.str (jsTrim st.input) },
                 { role := Role.assistant,
                   content := MessageContent.str (concatTexts chunks) }]
              conversation := st.conversation ++
                [{ role := Role.user,
                   content := MessageContent.str (jsTrim st.input) },
                 { role := Role.assistant,
                   content := MessageContent.str (concatTexts chunks) }]
              status := if chunks.isEmpty then Status.thinking else Status.ready
              input := "", attachments := []
              sessionFiles := st.sessionFiles, writeIndex := st.writeIndex }
          statusSets :=
            if chunks.isEmpty then [Status.thinking, Status.thinking]
            else [Status.thinking, Status.thinking, Status.ready]
          errorDelayMs := none }) := by
  have hrs := runStream_spec chunks ""
    (st.messages ++
      [{ role := Role.user, content := MessageContent.str (jsTrim st.input) }])
    (st.conversation ++
      [{ role := Role.user, content := MessageContent.str (jsTrim st.input) }])
    { role := Role.assistant, content := MessageContent.str ""
      isStreaming := true }
    { role := Role.assistant, content := MessageContent.str ""
      isStreaming := true }
    false [Status.thinking, Status.thinking] rfl rfl
  rw [str_empty_append] at hrs
  dsimp only at hrs
  unfold sendMessage
  rw [if_neg (sendMessage_guard_neg st hst htrim)]
  cases errOpt with
  | some e =>
    simp [hatt, hpp, hvid, htrim, hchat, sanitizeAttachments, uploadLoop,
      buildUserMessageContent, List.append_assoc] at hrs ⊢
    rw [hrs]
  | none =>
    simp [hatt, hpp, hvid, htrim, hchat, sanitizeAttachments, uploadLoop,
      buildUserMessageContent, List.append_assoc] at hrs ⊢
    rw [hrs]
    simp only [replaceLast_append_two, lastStatus]
    by_cases hc : chunks.isEmpty
    · simp [hc]
    · simp [hc]

lemma sendMessage_value_run (env : Env) (st : ChatState) (v : JSValue)
    (hst : st.status ≠ Status.thinking) (htrim : jsTrim st.input ≠ "")
    (hatt : st.attachments = []) (hpp : env.puterPresent = true)
    (hvid : env.modelId ≠ "video-generation")
    (hchat : env.chatResult = ChatResponse.value v) :
    sendMessage env st =
      (match extractContent v with
      | Except.error _ =>
        errorOutcome
          (ErrValue.native "Cannot use 'in' operator to search for 'text' in null")
          (st.messages ++
            [{ role := Role.user, content := MessageContent.str (jsTrim st.input) },
             { role := Role.assistant, content := MessageContent.str ""
               isStreaming := true }])
          (st.conversation ++
            [{ role := Role.user, content := MessageContent.str (jsTrim st.input) },
             { role := Role.assistant, content := MessageContent.str ""
               isStreaming := true }])
          st.sessionFiles st.writeIndex [Status.thinking, Status.thinking]
      | Except.ok answer =>
        { state :=
            { messages := st.messages ++
                [{ role := Role.user,
                   content := MessageContent.str (jsTrim st.input) },
                 { role := Role.assistant, content := contentOfJS answer }]
              conversation := st.conversation ++
                [{ role := Role.user,
                   content := MessageContent.str (jsTrim st.input) },
                 { role := Role.assistant, content := contentOfJS answer }]
              status := Status.ready, input := "", attachments := []
              sessionFiles := st.sessionFiles, writeIndex := st.writeIndex }
          statusSets := [Status.thinking, Status.thinking, Status.ready]
          errorDelayMs := none }) := by
  unfold sendMessage
  rw [if_neg (sendMessage_guard_neg st hst htrim)]
  cases hE : extractContent v with
  | error u =>
    simp [hatt, hpp, hvid, htrim, hchat, hE, sanitizeAttachments, uploadLoop,
      buildUserMessageContent, List.append_assoc]
  | ok answer =>
    simp [hatt, hpp, hvid, htrim, hchat, hE, sanitizeAttachments, uploadLoop,
      buildUserMessageContent, List.append_assoc, replaceLast_append_two]

lemma sendMessage_video_run (env : Env) (st : ChatState)
    (hst : st.status ≠ Status.thinking) (htrim : jsTrim st.input ≠ "")
    (hatt : st.attachments = []) (hpp : env.puterPresent = true)
    (hvid : env.modelId = "video-generation") :
    sendMessage env st =
      (match env.videoResult with
      | Except.error e =>
        errorOutcome e
          (st.messages ++
            [{ role := Role.user, content := MessageContent.str (jsTrim st.input) }])
          st.conversation st.sessionFiles st.writeIndex [Status.thinking]
      | Except.ok url =>
        { state :=
            { messages := st.messages ++
                [{ role := Role.user,
                   content := MessageContent.str (jsTrim st.input) },
                 { role := Role.assistant
                   content := MessageContent.str "Here is your generated video:"
                   videoUrl := some url }]
              conversation := st.conversation ++
                [{ role := Role.assistant
                   content := MessageContent.str "Here is your generated video:"
                   videoUrl := some url }]
              status := Status.ready, input := "", attachments := []
              sessionFiles := st.sessionFiles, writeIndex := st.writeIndex }
          statusSets := [Status.thinking, Status.ready]
          errorDelayMs := none }) := by
  unfold sendMessage
  rw [if_neg (sendMessage_guard_neg st hst htrim)]
  cases hv : env.videoResult with
  | error e =>
    simp [hatt, hpp, hvid, htrim, hv, sanitizeAttachments, List.append_assoc]
  | ok url =>
    simp [hatt, hpp, hvid, htrim, hv, sanitizeAttachments, List.append_assoc]

/-- C1: for a streamed response, each chunk's text is appended to the
accumulating buffer in arrival order — after the k-th chunk the loop's
buffer and the displayed assistant content equal the concatenation of
the first k chunk texts — and the final assistant content in both logs
equals the concatenation of all chunk texts. -/
theorem c1_streaming_accumulation (env : Env) (st : ChatState)
    (chunks : List JSValue)
    (hst : st.status ≠ Status.thinking) (htrim : jsTrim st.input ≠ "")
    (hatt : st.attachments = []) (hpp : env.puterPresent = true)
    (hvid : env.modelId ≠ "video-generation")
    (hchat : env.chatResult = ChatResponse.stream chunks none) :
    (sendMessage env st).state.messages =
      st.messages ++
        [{ role := Role.user, content := MessageContent.str (jsTrim st.input) },
         { role := Role.assistant,
           content := MessageContent.str (concatTexts chunks) }] ∧
    (sendMessage env st).state.conversation =
      st.conversation ++
        [{ role := Role.user, content := MessageContent.str (jsTrim st.input) },
         { role := Role.assistant,
           content := MessageContent.str (concatTexts chunks) }] ∧
    (∀ (k : Nat) (base cbase : List Message) (m mc : Message) (g : Bool)
       (tr : List Status),
      m.role = Role.assistant → mc.role = Role.assistant →
      (runStream
        { full := ""
          messages := base ++ [{ m with content := MessageContent.str "" }]
          conversation := cbase ++ [{ mc with content := MessageContent.str "" }]
          gotFirst := g, trace := tr } (chunks.take k)).messages =
        base ++
          [{ m with
             content := MessageContent.str (concatTexts (chunks.take k)) }]) ∧
    (∀ (k : Nat) (base cbase : List Message) (m mc : Message) (g : Bool)
       (tr : List Status),
      m.role = Role.assistant → mc.role = Role.assistant →
      (runStream
        { full := ""
          messages := base ++ [{ m with content := MessageContent.str "" }]
          conversation := cbase ++ [{ mc with content := MessageContent.str "" }]
          gotFirst := g, trace := tr } (chunks.take k)).full =
        concatTexts (chunks.take k)) := by
  have h := sendMessage_stream_run env st chunks none hst htrim hatt hpp hvid hchat
  refine ⟨?_, ?_, ?_, ?_⟩
  · rw [h]
  · rw [h]
  · intro k base cbase m mc g tr hm hmc
    have hs := runStream_spec (chunks.take k) "" base cbase m mc g tr hm hmc
    rw [str_empty_append] at hs
    rw [hs]
  · intro k base cbase m mc g tr hm hmc
    have hs := runStream_spec (chunks.take k) "" base cbase m mc g tr hm hmc
    rw [str_empty_append] at hs
    rw [hs]

/-- C1 witness: the concrete chunk sequence of the specification — the
final displayed assistant content is "Hello, world" and the first one,
two and three chunk texts concatenate to "Hel", "Hello, " and
"Hello, world". -/
theorem c1_streaming_accumulation_witness :
    (sendMessage
        { modelId := "m", puterPresent := true, fsPresent := true,
          paths := fun _ => "p", videoResult := Except.ok "u",
          chatResult := ChatResponse.stream
            [JSValue.str "Hel", JSValue.str "lo, ", JSValue.str "world"] none }
        { messages := [], conversation := [], status := Status.ready,
          input := "hi", attachments := [], sessionFiles := [],
          writeIndex := 0 }).state.messages =
      [{ role := Role.user, content := MessageContent.str "hi" },
       { role := Role.assistant,
         content := MessageContent.str "Hello, world" }] ∧
    concatTexts
        ([JSValue.str "Hel", JSValue.str "lo, ", JSValue.str "world"].take 1) =
      "Hel" ∧
    concatTexts
        ([JSValue.str "Hel", JSValue.str "lo, ", JSValue.str "world"].take 2) =
      "Hello, " ∧
    concatTexts
        ([JSValue.str "Hel", JSValue.str "lo, ", JSValue.str "world"].take 3) =
      "Hello, world" :=
  ⟨(c1_streaming_accumulation _ _
      [JSValue.str "Hel", JSValue.str "lo, ", JSValue.str "world"]
      (by decide) (by decide) rfl rfl (by decide) rfl).1,
   rfl, rfl, rfl⟩

/-- C10: an async-iterable response yielding zero chunks completes the
send without any error — the placeholder collapses into an assistant
message with empty content in both logs — but the status stays
thinking: the only transition to ready in the streaming branch lives in
the first-chunk case, so after an empty stream the thinking guard turns
every subsequent send into a no-op. -/
theorem c10_empty_stream_thinking (env : Env) (st : ChatState)
    (hst : st.status ≠ Status.thinking) (htrim : jsTrim st.input ≠ "")
    (hatt : st.attachments = []) (hpp : env.puterPresent = true)
    (hvid : env.modelId ≠ "video-generation")
    (hchat : env.chatResult = ChatResponse.stream [] none) :
    (sendMessage env st).state.status = Status.thinking ∧
    (sendMessage env st).statusSets = [Status.thinking, Status.thinking] ∧
    (sendMessage env st).errorDelayMs = none ∧
    (sendMessage env st).state.messages =
      st.messages ++
        [{ role := Role.user, content := MessageContent.str (jsTrim st.input) },
         { role := Role.assistant, content := MessageContent.str "" }] ∧
    (sendMessage env st).state.conversation =
      st.conversation ++
        [{ role := Role.user, content := MessageContent.str (jsTrim st.input) },
         { role := Role.assistant, content := MessageContent.str "" }] ∧
    (∀ env2 : Env,
      sendMessage env2 (sendMessage env st).state =
        noopOutcome (sendMessage env st).state) := by
  have h := sendMessage_stream_run env st [] none hst htrim hatt hpp hvid hchat
  have hth : (sendMessage env st).state.status = Status.thinking := by
    rw [h]
    rfl
  refine ⟨hth, ?_, ?_, ?_, ?_, ?_⟩
  · rw [h] <;> rfl
  · rw [h] <;> rfl
  · rw [h] <;> rfl
  · rw [h] <;> rfl
  · intro env2
    exact sendMessage_noop_of_thinking env2 _ hth

/-- C10 witness: a concrete empty-stream run ends with empty assistant
content, status thinking, and a blocked follow-up send. -/
theorem c10_empty_stream_thinking_witness :
    (sendMessage
        { modelId := "m", puterPresent := true, fsPresent := true,
          paths := fun _ => "p", videoResult := Except.ok "u",
          chatResult := ChatResponse.stream [] none }
        { messages := [], conversation := [], status := Status.ready,
          input := "hi", attachments := [], sessionFiles := [],
          writeIndex := 0 }).state.status = Status.thinking ∧
    (sendMessage
        { modelId := "m", puterPresent := true, fsPresent := true,
          paths := fun _ => "p", videoResult := Except.ok "u",
          chatResult := ChatResponse.stream [] none }
        { messages := [], conversation := [], status := Status.ready,
          input := "hi", attachments := [], sessionFiles := [],
          writeIndex := 0 }).state.messages =
      [{ role := Role.user, content := MessageContent.str "hi" },
       { role := Role.assistant, content := MessageContent.str "" }] :=
  ⟨(c10_empty_stream_thinking _ _
      (by decide) (by decide) rfl rfl (by decide) rfl).1,
   (c10_empty_stream_thinking
      { modelId := "m", puterPresent := true, fsPresent := true,
        paths := fun _ => "p", videoResult := Except.ok "u",
        chatResult := ChatResponse.stream [] none }
      { messages := [], conversation := [], status := Status.ready,
        input := "hi", attachments := [], sessionFiles := [],
        writeIndex := 0 }
      (by decide) (by decide) rfl rfl (by decide) rfl).2.2.2.1⟩

/-- C2: every failure thrown after the turn starts — the chat call
rejecting, or the stream throwing after its chunks — appends a
display-only assistant message whose content is "Error: " plus the
extracted message, sets status to error, schedules the fixed 3000 ms
return to ready, and the timer only flips the status back (no retry,
logs untouched); the extraction tries, in order, a native error's
message, a truthy nested error.message, a truthy message, the
JSON-stringified object, and the raw string. -/
theorem c2_error_handling (env : Env) (st : ChatState) (e : ErrValue)
    (hst : st.status ≠ Status.thinking) (htrim : jsTrim st.input ≠ "")
    (hatt : st.attachments = []) (hpp : env.puterPresent = true)
    (hvid : env.modelId ≠ "video-generation") :
    (env.chatResult = ChatResponse.reject e →
      ((sendMessage env st).state.messages.getLast? =
        some { role := Role.assistant,
               content :=
                 MessageContent.str ("Error: " ++ extractErrorText e) } ∧
       (sendMessage env st).statusSets = [Status.thinking, Status.error] ∧
       (sendMessage env st).state.status = Status.error ∧
       (sendMessage env st).errorDelayMs = some 3000 ∧
       (fireErrorTimer (sendMessage env st).state).status = Status.ready ∧
       (fireErrorTimer (sendMessage env st).state).messages =
         (sendMessage env st).state.messages ∧
       (fireErrorTimer (sendMessage env st).state).conversation =
         (sendMessage env st).state.conversation)) ∧
    (∀ chunks, env.chatResult = ChatResponse.stream chunks (some e) →
      ((sendMessage env st).state.messages.getLast? =
        some { role := Role.assistant,
               content :=
                 MessageContent.str ("Error: " ++ extractErrorText e) } ∧
       (sendMessage env st).state.status = Status.error ∧
       (sendMessage env st).errorDelayMs = some 3000 ∧
       (fireErrorTimer (sendMessage env st).state).status = Status.ready)) ∧
    (∀ m, extractErrorText (ErrValue.native m) = m) ∧
    (∀ v : JSValue, ((v.get "error").get "message").truthy = true →
      extractErrorText (ErrValue.js v) =
        jsToString ((v.get "error").get "message")) ∧
    (∀ v : JSValue, ((v.get "error").get "message").truthy = false →
      (v.get "message").truthy = true →
      extractErrorText (ErrValue.js v) = jsToString (v.get "message")) ∧
    (∀ v : JSValue, ((v.get "error").get "message").truthy = false →
      (v.get "message").truthy = false → typeofObject v = true →
      extractErrorText (ErrValue.js v) = (jsonStringify v).getD "undefined") ∧
    (∀ s : String, extractErrorText (ErrValue.js (JSValue.str s)) = s) ∧
    (∀ env2 : Env, env2.puterPresent = false →
      ((sendMessage env2 st).state.messages.getLast? =
        some { role := Role.assistant,
               content := MessageContent.str "Error: Puter SDK not loaded" } ∧
       (sendMessage env2 st).state.status = Status.error ∧
       (sendMessage env2 st).errorDelayMs = some 3000)) := by
  refine ⟨?_, ?_, ?_, ?_, ?_, ?_, ?_, ?_⟩
  · intro hchat
    have h := sendMessage_reject_run env st e hst htrim hatt hpp hvid hchat
    rw [h]
    simp [errorOutcome, fireErrorTimer, List.getLast?_concat]
  · intro chunks hchat
    have h := sendMessage_stream_run env st chunks (some e) hst htrim hatt hpp
      hvid hchat
    rw [h]
    simp [errorOutcome, fireErrorTimer, List.getLast?_concat]
  · intro m
    rfl
  · intro v h1
    unfold extractErrorText
    dsimp only
    rw [if_pos h1]
  · intro v h1 h2
    unfold extractErrorText
    dsimp only
    rw [if_neg (by simp [h1]), if_pos h2]
  · intro v h1 h2 h3
    unfold extractErrorText
    dsimp only
    rw [if_neg (by simp [h1]), if_neg (by simp [h2]), if_pos h3]
  · intro s
    rfl
  · intro env2 hp2
    unfold sendMessage
    rw [if_neg (sendMessage_guard_neg st hst htrim)]
    simp [hp2, htrim, hatt, errorOutcome, extractErrorText,
      List.getLast?_concat]

/-- C2 witness: a chat rejection with a native error "rate limited" —
the display log's last message is exactly "Error: rate limited", the
trace is thinking then error, the 3000 ms timer is scheduled and firing
it returns the status to ready. -/
theorem c2_error_handling_witness :
    (sendMessage
        { modelId := "m", puterPresent := true, fsPresent := true,
          paths := fun _ => "p", videoResult := Except.ok "u",
          chatResult := ChatResponse.reject (ErrValue.native "rate limited") }
        { messages := [], conversation := [], status := Status.ready,
          input := "ping", attachments := [], sessionFiles := [],
          writeIndex := 0 }).state.messages.getLast? =
      some { role := Role.assistant,
             content := MessageContent.str "Error: rate limited" } ∧
    (sendMessage
        { modelId := "m", puterPresent := true, fsPresent := true,
          paths := fun _ => "p", videoResult := Except.ok "u",
          chatResult := ChatResponse.reject (ErrValue.native "rate limited") }
        { messages := [], conversation := [], status := Status.ready,
          input := "ping", attachments := [], sessionFiles := [],
          writeIndex := 0 }).statusSets = [Status.thinking, Status.error] ∧
    (sendMessage
        { modelId := "m", puterPresent := true, fsPresent := true,
          paths := fun _ => "p", videoResult := Except.ok "u",
          chatResult := ChatResponse.reject (ErrValue.native "rate limited") }
        { messages := [], conversation := [], status := Status.ready,
          input := "ping", attachments := [], sessionFiles := [],
          writeIndex := 0 }).errorDelayMs = some 3000 ∧
    (fireErrorTimer
      (sendMessage
        { modelId := "m", puterPresent := true, fsPresent := true,
          paths := fun _ => "p", videoResult := Except.ok "u",
          chatResult := ChatResponse.reject (ErrValue.native "rate limited") }
        { messages := [], conversation := [], status := Status.ready,
          input := "ping", attachments := [], sessionFiles := [],
          writeIndex := 0 }).state).status = Status.ready := by
  have h := (c2_error_handling
    { modelId := "m", puterPresent := true, fsPresent := true,
      paths := fun _ => "p", videoResult := Except.ok "u",
      chatResult := ChatResponse.reject (ErrValue.native "rate limited") }
    { messages := [], conversation := [], status := Status.ready,
      input := "ping", attachments := [], sessionFiles := [],
      writeIndex := 0 }
    (ErrValue.native "rate limited")
    (by decide) (by decide) rfl rfl (by decide)).1 rfl
  exact ⟨h.1, h.2.1, h.2.2.2.1, h.2.2.2.2.1⟩

/-- C3 counterexample: a stream that throws before yielding anything.
The API log, empty before the send, ends up holding the user entry and
the empty streaming placeholder assistant entry from the failed turn,
and the display log keeps that dangling empty placeholder right before
the error bubble — neither removed nor superseded. -/
theorem c3_counterexample :
    (sendMessage
        { modelId := "m", puterPresent := true, fsPresent := true,
          paths := fun _ => "p", videoResult := Except.ok "u",
          chatResult := ChatResponse.stream [] (some (ErrValue.native "boom")) }
        { messages := [], conversation := [], status := Status.ready,
          input := "hi", attachments := [], sessionFiles := [],
          writeIndex := 0 }).state.conversation =
      [{ role := Role.user, content := MessageContent.str "hi" },
       { role := Role.assistant, content := MessageContent.str "",
         isStreaming := true }] ∧
    (sendMessage
        { modelId := "m", puterPresent := true, fsPresent := true,
          paths := fun _ => "p", videoResult := Except.ok "u",
          chatResult := ChatResponse.stream [] (some (ErrValue.native "boom")) }
        { messages := [], conversation := [], status := Status.ready,
          input := "hi", attachments := [], sessionFiles := [],
          writeIndex := 0 }).state.messages =
      [{ role := Role.user, content := MessageContent.str "hi" },
       { role := Role.assistant, content := MessageContent.str "",
         isStreaming := true },
       { role := Role.assistant, content := MessageContent.str "Error: boom" }] :=
  ⟨rfl, rfl⟩

/-- C3 (amended): on a failed send the catch block touches only the
display log — it appends the error bubble there and never writes the
API log; but entries appended before the failure remain: the API user
message and, once streaming began, the placeholder assistant message
(carrying the partial accumulation) stay in the API log, and the
placeholder also stays in the display log immediately before the error
bubble instead of being removed. -/
theorem c3_error_log_state (env : Env) (st : ChatState)
    (chunks : List JSValue) (e : ErrValue)
    (hst : st.status ≠ Status.thinking) (htrim : jsTrim st.input ≠ "")
    (hatt : st.attachments = []) (hpp : env.puterPresent = true)
    (hvid : env.modelId ≠ "video-generation")
    (hchat : env.chatResult = ChatResponse.stream chunks (some e)) :
    (sendMessage env st).state.messages =
      st.messages ++
        [{ role := Role.user, content := MessageContent.str (jsTrim st.input) },
         { role := Role.assistant,
           content := MessageContent.str (concatTexts chunks),
           isStreaming := true },
         { role := Role.assistant,
           content :=
             MessageContent.str ("Error: " ++ extractErrorText e) }] ∧
    (sendMessage env st).state.conversation =
      st.conversation ++
        [{ role := Role.user, content := MessageContent.str (jsTrim st.input) },
         { role := Role.assistant,
           content := MessageContent.str (concatTexts chunks),
           isStreaming := true }] := by
  have h := sendMessage_stream_run env st chunks (some e) hst htrim hatt hpp
    hvid hchat
  rw [h]
  constructor
  · simp [errorOutcome]
  · simp [errorOutcome]

/-- C3 witness: a concrete one-chunk stream failure — the bubble lands
only in the display log, and the partially filled placeholder stays in
both logs. -/
theorem c3_error_log_state_witness :
    (sendMessage
        { modelId := "m", puterPresent := true, fsPresent := true,
          paths := fun _ => "p", videoResult := Except.ok "u",
          chatResult :=
            ChatResponse.stream [JSValue.str "par"]
              (some (ErrValue.native "cut")) }
        { messages := [], conversation := [], status := Status.ready,
          input := "hi", attachments := [], sessionFiles := [],
          writeIndex := 0 }).state.messages =
      [{ role := Role.user, content := MessageContent.str "hi" },
       { role := Role.assistant, content := MessageContent.str "par",
         isStreaming := true },
       { role := Role.assistant,
         content := MessageContent.str "Error: cut" }] ∧
    (sendMessage
        { modelId := "m", puterPresent := true, fsPresent := true,
          paths := fun _ => "p", videoResult := Except.ok "u",
          chatResult :=
            ChatResponse.stream [JSValue.str "par"]
              (some (ErrValue.native "cut")) }
        { messages := [], conversation := [], status := Status.ready,
          input := "hi", attachments := [], sessionFiles := [],
          writeIndex := 0 }).state.conversation =
      [{ role := Role.user, content := MessageContent.str "hi" },
       { role := Role.assistant, content := MessageContent.str "par",
         isStreaming := true }] := by
  have h := c3_error_log_state
    { modelId := "m", puterPresent := true, fsPresent := true,
      paths := fun _ => "p", videoResult := Except.ok "u",
      chatResult :=
        ChatResponse.stream [JSValue.str "par"]
          (some (ErrValue.native "cut")) }
    { messages := [], conversation := [], status := Status.ready,
      input := "hi", attachments := [], sessionFiles := [],
      writeIndex := 0 }
    [JSValue.str "par"] (ErrValue.native "cut")
    (by decide) (by decide) rfl rfl (by decide) rfl
  exact ⟨h.1, h.2⟩

/-- C4 counterexample: a successful video-generation turn. The display
log gains the user message and the assistant video reply, but the API
log gains only the assistant reply — the turn's user message never
reaches the API log, so the two logs are not append-synchronized on
this path. -/
theorem c4_counterexample :
    (sendMessage
        { modelId := "video-generation", puterPresent := true,
          fsPresent := true, paths := fun _ => "p",
          videoResult := Except.ok "blob:v",
          chatResult := ChatResponse.stream [] none }
        { messages := [], conversation := [], status := Status.ready,
          input := "make", attachments := [], sessionFiles := [],
          writeIndex := 0 }).state.messages =
      [{ role := Role.user, content := MessageContent.str "make" },
       { role := Role.assistant,
         content := MessageContent.str "Here is your generated video:",
         videoUrl := some "blob:v" }] ∧
    (sendMessage
        { modelId := "video-generation", puterPresent := true,
          fsPresent := true, paths := fun _ => "p",
          videoResult := Except.ok "blob:v",
          chatResult := ChatResponse.stream [] none }
        { messages := [], conversation := [], status := Status.ready,
          input := "make", attachments := [], sessionFiles := [],
          writeIndex := 0 }).state.conversation =
      [{ role := Role.assistant,
         content := MessageContent.str "Here is your generated video:",
         videoUrl := some "blob:v" }] :=
  ⟨rfl, rfl⟩

/-- C4 (amended): for every non-video turn that completes successfully
(streamed or not), the display log and the API log each gain the turn's
user message and its final assistant message, in that order; on the
video path both logs gain the assistant reply, but the user message is
appended only to the display log. -/
theorem c4_log_synchronization (env : Env) (st : ChatState)
    (hst : st.status ≠ Status.thinking) (htrim : jsTrim st.input ≠ "")
    (hatt : st.attachments = []) (hpp : env.puterPresent = true) :
    (∀ chunks, env.modelId ≠ "video-generation" →
      env.chatResult = ChatResponse.stream chunks none →
      ((sendMessage env st).state.messages =
        st.messages ++
          [{ role := Role.user, content := MessageContent.str (jsTrim st.input) },
           { role := Role.assistant,
             content := MessageContent.str (concatTexts chunks) }] ∧
       (sendMessage env st).state.conversation =
        st.conversation ++
          [{ role := Role.user, content := MessageContent.str (jsTrim st.input) },
           { role := Role.assistant,
             content := MessageContent.str (concatTexts chunks) }])) ∧
    (∀ v answer, env.modelId ≠ "video-generation" →
      env.chatResult = ChatResponse.value v →
      extractContent v = Except.ok answer →
      ((sendMessage env st).state.messages =
        st.messages ++
          [{ role := Role.user, content := MessageContent.str (jsTrim st.input) },
           { role := Role.assistant, content := contentOfJS answer }] ∧
       (sendMessage env st).state.conversation =
        st.conversation ++
          [{ role := Role.user, content := MessageContent.str (jsTrim st.input) },
           { role := Role.assistant, content := contentOfJS answer }])) ∧
    (∀ url, env.modelId = "video-generation" →
      env.videoResult = Except.ok url →
      ((sendMessage env st).state.messages =
        st.messages ++
          [{ role := Role.user, content := MessageContent.str (jsTrim st.input) },
           { role := Role.assistant,
             content := MessageContent.str "Here is your generated video:",
             videoUrl := some url }] ∧
       (sendMessage env st).state.conversation =
        st.conversation ++
          [{ role := Role.assistant,
             content := MessageContent.str "Here is your generated video:",
             videoUrl := some url }])) := by
  refine ⟨?_, ?_, ?_⟩
  · intro chunks hvid hchat
    have h := sendMessage_stream_run env st chunks none hst htrim hatt hpp
      hvid hchat
    rw [h]
    exact ⟨rfl, rfl⟩
  · intro v answer hvid hchat hok
    have h := sendMessage_value_run env st v hst htrim hatt hpp hvid hchat
    rw [h, hok]
    exact ⟨rfl, rfl⟩
  · intro url hvid hok
    have h := sendMessage_video_run env st hst htrim hatt hpp hvid
    rw [h, hok]
    exact ⟨rfl, rfl⟩

/-- C4 witness: a concrete successful streamed turn — both logs gain
the user message "hi" and the assistant reply "ok". -/
theorem c4_log_synchronization_witness :
    (sendMessage
        { modelId := "m", puterPresent := true, fsPresent := true,
          paths := fun _ => "p", videoResult := Except.ok "u",
          chatResult := ChatResponse.stream [JSValue.str "ok"] none }
        { messages := [], conversation := [], status := Status.ready,
          input := "hi", attachments := [], sessionFiles := [],
          writeIndex := 0 }).state.messages =
      [{ role := Role.user, content := MessageContent.str "hi" },
       { role := Role.assistant, content := MessageContent.str "ok" }] ∧
    (sendMessage
        { modelId := "m", puterPresent := true, fsPresent := true,
          paths := fun _ => "p", videoResult := Except.ok "u",
          chatResult := ChatResponse.stream [JSValue.str "ok"] none }
        { messages := [], conversation := [], status := Status.ready,
          input := "hi", attachments := [], sessionFiles := [],
          writeIndex := 0 }).state.conversation =
      [{ role := Role.user, content := MessageContent.str "hi" },
       { role := Role.assistant, content := MessageContent.str "ok" }] := by
  have h := (c4_log_synchronization
    { modelId := "m", puterPresent := true, fsPresent := true,
      paths := fun _ => "p", videoResult := Except.ok "u",
      chatResult := ChatResponse.stream [JSValue.str "ok"] none }
    { messages := [], conversation := [], status := Status.ready,
      input := "hi", attachments := [], sessionFiles := [],
      writeIndex := 0 }
    (by decide) (by decide) rfl rfl).1 [JSValue.str "ok"] (by decide) rfl
  exact ⟨h.1, h.2⟩

/-- C5 witness: the amended claim at the concrete two-part content —
the first part's text "A" is truthy, the fallback extractor returns
"A" alone, and the full normalizer returns "AB". -/
theorem c5_fallback_first_part_only_witness :
    ((JSValue.obj [("text", JSValue.str "A")]).get "text").truthy = true ∧
    extractContent
        (JSValue.obj [("message", JSValue.obj [("content",
          JSValue.arr [JSValue.obj [("text", JSValue.str "A")],
            JSValue.obj [("text", JSValue.str "B")]])])]) =
      Except.ok (JSValue.str "A") ∧
    extractResponseText
        (JSValue.obj [("message", JSValue.obj [("content",
          JSValue.arr [JSValue.obj [("text", JSValue.str "A")],
            JSValue.obj [("text", JSValue.str "B")]])])]) =
      JSValue.str "AB" :=
  ⟨rfl,
   (c5_fallback_first_part_only [] (JSValue.obj [("text", JSValue.str "A")])
      [JSValue.obj [("text", JSValue.str "B")]] rfl).1,
   (c5_fallback_first_part_only [] (JSValue.obj [("text", JSValue.str "A")])
      [JSValue.obj [("text", JSValue.str "B")]] rfl).2⟩

/-- C8 witness: one image attachment uploaded under a path oracle that
returns "p" — the built content's single file part carries exactly the
written path. -/
theorem c8_upload_roundtrip_witness :
    (∀ j : Nat, (fun _ : Nat => "p") j ≠ "") ∧
    contentFilePaths
        (buildUserMessageContent "hello"
          (uploadLoop (fun _ => "p") 0
            [{ id := "1",
               file := some { name := "a.png", size := 3, type := "image/png" },
               name := "a.png", size := 3, type := "image/png",
               isImage := true }]).1) =
      (uploadLoop (fun _ => "p") 0
        [{ id := "1",
           file := some { name := "a.png", size := 3, type := "image/png" },
           name := "a.png", size := 3, type := "image/png",
           isImage := true }]).2.1 :=
  ⟨fun _ => (by decide : ("p" : String) ≠ ""),
   (c8_upload_roundtrip (fun _ => "p") 0 "hello"
      [{ id := "1",
         file := some { name := "a.png", size := 3, type := "image/png" },
         name := "a.png", size := 3, type := "image/png",
         isImage := true }]
      (fun _ => (by decide : ("p" : String) ≠ ""))).1⟩
